import Mathlib

/-!
Shallow embedding of the resilience layer of the TaskFlow API repository:
the in-process circuit breaker (`src/common/services/circuit-breaker.service.ts`),
the Redis-backed sliding-window rate limiter (`rate-limit.service.ts`) and the
HTTP guard wrapping it (`redis-rate-limit.guard.ts`).

Timestamps and JS numbers that hold millisecond counts are modelled as `Int`
(the code only ever adds, subtracts, compares and divides them, all exact in
IEEE doubles for the magnitudes involved).  Counters are `Nat`.  A thrown JS
value is modelled as a `JsError` carrying its constructor name and message;
`throw new Error(msg)` becomes `JsError.mk "Error" msg`.  Asynchronous
operations are modelled by their settled outcome `Except JsError α`.
-/

namespace TaskFlow

/-- JS `ToInt32` conversion: the effect of `x & x` (and of `<<`) on an
integral JS number, wrapping into the signed 32-bit range. -/
def toInt32 (x : Int) : Int :=
  (x + 2 ^ 31) % 2 ^ 32 - 2 ^ 31

/-- JS `a || b` on an optional string: `undefined` and the empty string are
falsy and fall through to the default. -/
def jsOrString (s : Option String) (d : String) : String :=
  match s with
  | none => d
  | some v => if v = "" then d else v

/-- JS `Math.ceil(x / 1000)` for an integral nonnegative `x` (the code only
divides nonnegative millisecond spans by 1000). -/
def jsCeilDiv1000 (x : Int) : Int :=
  (x + 999) / 1000

/-- A thrown JS value: constructor name (its runtime type) and message.
`new Error(m)` has `ty = "Error"`. -/
structure JsError where
  ty : String
  msg : String
deriving DecidableEq

/-! ## Circuit breaker (`circuit-breaker.service.ts`) -/

inductive CircuitBreakerState where
  | CLOSED
  | OPEN
  | HALF_OPEN
deriving DecidableEq

/-- `CircuitBreakerOptions` from the source: threshold is a count, the other
three are millisecond durations. -/
structure CircuitBreakerOptions where
  failureThreshold : Nat
  recoveryTimeout : Int
  expectedResponseTime : Int
  monitoringWindow : Int
deriving DecidableEq

/-- The mutable fields of the `CircuitBreaker` class, plus its two
constructor arguments (`serviceName`, `options`). -/
structure CircuitBreaker where
  state : CircuitBreakerState
  failureCount : Nat
  lastFailure : Option Int
  lastStateChange : Int
  consecutiveSuccesses : Nat
  options : CircuitBreakerOptions
  serviceName : String
deriving DecidableEq

/-- `new CircuitBreaker(serviceName, options, logger)` at time `now`
(`lastStateChange = Date.now()` at construction). -/
def newCircuitBreaker (name : String) (opts : CircuitBreakerOptions) (now : Int) :
    CircuitBreaker :=
  { state := .CLOSED, failureCount := 0, lastFailure := none, lastStateChange := now
    consecutiveSuccesses := 0, options := opts, serviceName := name }

/-- The error thrown when the breaker rejects a call: a plain `Error` whose
message names the dependency. -/
def openError (name : String) : JsError :=
  { ty := "Error", msg := "Circuit breaker for " ++ name ++ " is OPEN" }

def CircuitBreaker.transitionToOpen (cb : CircuitBreaker) (now : Int) : CircuitBreaker :=
  { cb with state := .OPEN, lastStateChange := now }

def CircuitBreaker.transitionToHalfOpen (cb : CircuitBreaker) (now : Int) : CircuitBreaker :=
  { cb with state := .HALF_OPEN, lastStateChange := now }

def CircuitBreaker.transitionToClosed (cb : CircuitBreaker) (now : Int) : CircuitBreaker :=
  { cb with state := .CLOSED, lastStateChange := now, failureCount := 0
            consecutiveSuccesses := 0 }

/-- `onSuccess`: zero `failureCount`, bump `consecutiveSuccesses`; in
HALF_OPEN, close once `consecutiveSuccesses >= Math.ceil(failureThreshold/2)`
(for a nonnegative integer `t`, `Math.ceil(t/2) = (t+1)/2` in `Nat`). -/
def CircuitBreaker.onSuccess (cb : CircuitBreaker) (now : Int) : CircuitBreaker :=
  let cb1 := { cb with failureCount := 0
                       consecutiveSuccesses := cb.consecutiveSuccesses + 1 }
  if cb1.state = .HALF_OPEN then
    if (cb1.options.failureThreshold + 1) / 2 ≤ cb1.consecutiveSuccesses then
      cb1.transitionToClosed now
    else cb1
  else cb1

/-- `onFailure`: bump `failureCount`, record `lastFailure = new Date()`,
zero `consecutiveSuccesses`; open once `failureCount >= failureThreshold`. -/
def CircuitBreaker.onFailure (cb : CircuitBreaker) (now : Int) : CircuitBreaker :=
  let cb1 := { cb with failureCount := cb.failureCount + 1
                       lastFailure := some now
                       consecutiveSuccesses := 0 }
  if cb1.options.failureThreshold ≤ cb1.failureCount then
    cb1.transitionToOpen now
  else cb1

/-- `shouldAttemptReset`: false with no recorded failure, else
`Date.now() - lastFailure.getTime() >= recoveryTimeout`. -/
def CircuitBreaker.shouldAttemptReset (cb : CircuitBreaker) (now : Int) : Bool :=
  match cb.lastFailure with
  | none => false
  | some t => cb.options.recoveryTimeout ≤ now - t

/-- Outcome of one `execute` call: the settled result returned or thrown to
the caller, the breaker state afterwards, and whether the wrapped operation
was invoked at all. -/
structure ExecOutcome (α : Type) where
  result : Except JsError α
  breaker : CircuitBreaker
  opInvoked : Bool

/-- The `try`/`catch` body of `execute`: invoke the operation, then
`onSuccess` and return, or `onFailure` and re-throw the original error. -/
def CircuitBreaker.runOperation {α : Type} (cb : CircuitBreaker) (now : Int)
    (opResult : Except JsError α) : ExecOutcome α :=
  match opResult with
  | Except.ok v => ⟨Except.ok v, cb.onSuccess now, true⟩
  | Except.error e => ⟨Except.error e, cb.onFailure now, true⟩

/-- `CircuitBreaker.execute`, with the wrapped operation represented by its
settled outcome `opResult` (used only when the operation is invoked). -/
def CircuitBreaker.execute {α : Type} (cb : CircuitBreaker) (now : Int)
    (opResult : Except JsError α) : ExecOutcome α :=
  if cb.state = .OPEN then
    if cb.shouldAttemptReset now then
      (cb.transitionToHalfOpen now).runOperation now opResult
    else
      ⟨Except.error (openError cb.serviceName), cb, false⟩
  else
    cb.runOperation now opResult

/-- The private `reset` method (used by `resetCircuitBreaker`). -/
def CircuitBreaker.resetCircuitBreaker (cb : CircuitBreaker) (now : Int) : CircuitBreaker :=
  { cb with state := .CLOSED, failureCount := 0, consecutiveSuccesses := 0
            lastFailure := none, lastStateChange := now }

/-- The record returned by `CircuitBreaker.getStatus`. -/
structure BreakerStatus where
  state : CircuitBreakerState
  failureCount : Nat
  lastFailure : Option Int
deriving DecidableEq

def CircuitBreaker.getStatus (cb : CircuitBreaker) : BreakerStatus :=
  { state := cb.state, failureCount := cb.failureCount, lastFailure := cb.lastFailure }

/-- A sequence of `execute` calls, at the given times, whose wrapped
operation fails with `e` every time it is invoked. -/
def applyFailures (e : JsError) : CircuitBreaker → List Int → CircuitBreaker
  | cb, [] => cb
  | cb, t :: ts =>
      applyFailures e ((cb.execute t (Except.error (α := Unit) e)).breaker) ts

/-! ## CircuitBreakerService: the per-name registry -/

/-- `Partial<CircuitBreakerOptions>` as passed to `execute`. -/
structure PartialCircuitBreakerOptions where
  failureThreshold : Option Nat := none
  recoveryTimeout : Option Int := none
  expectedResponseTime : Option Int := none
  monitoringWindow : Option Int := none

/-- `{ failureThreshold: 5, recoveryTimeout: 30000, expectedResponseTime: 5000,
monitoringWindow: 60000, ...options }`: each supplied field overrides the
default. -/
def mergeOptions (o : PartialCircuitBreakerOptions) : CircuitBreakerOptions :=
  { failureThreshold := o.failureThreshold.getD 5
    recoveryTimeout := o.recoveryTimeout.getD 30000
    expectedResponseTime := o.expectedResponseTime.getD 5000
    monitoringWindow := o.monitoringWindow.getD 60000 }

/-- The service's `Map<string, CircuitBreaker>`, as an insertion-ordered
association list. -/
structure CircuitBreakerService where
  circuitBreakers : List (String × CircuitBreaker)
deriving DecidableEq

/-- `Map.get`. -/
def mapFind {β : Type} : String → List (String × β) → Option β
  | _, [] => none
  | k, (k0, v) :: rest => if k0 = k then some v else mapFind k rest

/-- `Map.set`: overwrite in place if the key exists, else append. -/
def mapSet {β : Type} : List (String × β) → String → β → List (String × β)
  | [], k, v => [(k, v)]
  | (k0, v0) :: rest, k, v =>
      if k0 = k then (k, v) :: rest else (k0, v0) :: mapSet rest k v

/-- `getOrCreateCircuitBreaker`: create (with merged options) only when the
name is absent; always return the stored instance. -/
def getOrCreateCircuitBreaker (svc : CircuitBreakerService) (name : String)
    (opts : PartialCircuitBreakerOptions) (now : Int) :
    CircuitBreaker × CircuitBreakerService :=
  match mapFind name svc.circuitBreakers with
  | some cb => (cb, svc)
  | none =>
      let cb := newCircuitBreaker name (mergeOptions opts) now
      (cb, ⟨mapSet svc.circuitBreakers name cb⟩)

/-- `CircuitBreakerService.execute`: route through the per-name breaker and
store its updated state back in the registry. -/
def serviceExecute {α : Type} (svc : CircuitBreakerService) (name : String)
    (opts : PartialCircuitBreakerOptions) (now : Int)
    (opResult : Except JsError α) :
    Except JsError α × CircuitBreakerService × Bool :=
  let created := getOrCreateCircuitBreaker svc name opts now
  let out := created.1.execute now opResult
  (out.result, ⟨mapSet created.2.circuitBreakers name out.breaker⟩, out.opInvoked)

/-- `CircuitBreakerService.getStatus`: snapshot of every known breaker. -/
def serviceGetStatus (svc : CircuitBreakerService) : List (String × BreakerStatus) :=
  svc.circuitBreakers.map (fun p => (p.1, p.2.getStatus))

/-- `CircuitBreakerService.reset`: a no-op when the name is unknown. -/
def serviceReset (svc : CircuitBreakerService) (name : String) (now : Int) :
    CircuitBreakerService :=
  match mapFind name svc.circuitBreakers with
  | none => svc
  | some cb => ⟨mapSet svc.circuitBreakers name (cb.resetCircuitBreaker now)⟩

/-! ## Rate limiter (`rate-limit.service.ts`) -/

/-- The merged `RateLimitOptions` (defaults already applied). -/
structure RateLimitOptions where
  limit : Int
  windowMs : Int
  keyPrefix : String
deriving DecidableEq

/-- `RateLimitResult` from the source.  The spec calls the `success` field
`allowed` and the `retryAfter` field `retryAfterSeconds`. -/
structure RateLimitResult where
  success : Bool
  limit : Int
  remaining : Int
  resetTime : Int
  retryAfter : Option Int
deriving DecidableEq

/-- The state Redis holds under one rate-limit key: the sorted-set entries
`(score, member)` and the key's TTL in seconds (set by `expire`). -/
structure RedisKeyState where
  entries : List (Int × String)
  ttl : Option Int
deriving DecidableEq

/-- `ZREMRANGEBYSCORE key lo hi`: drop every member whose score lies in
`[lo, hi]`. -/
def zremrangebyscore (l : List (Int × String)) (lo hi : Int) : List (Int × String) :=
  l.filter (fun p => !(lo ≤ p.1 && p.1 ≤ hi))

/-- `ZADD key score member`: update the member's score when present, else
insert the member. -/
def zadd (l : List (Int × String)) (score : Int) (member : String) :
    List (Int × String) :=
  if l.any (fun p => p.2 = member) then
    l.map (fun p => if p.2 = member then (score, member) else p)
  else
    l ++ [(score, member)]

/-- `createAllowResult(limit, windowMs)` evaluated at time `now`
(`resetTime = Date.now() + windowMs`, `remaining = limit - 1`, no
`retryAfter`). -/
def createAllowResult (limit windowMs now : Int) : RateLimitResult :=
  { success := true, limit := limit, remaining := limit - 1
    resetTime := now + windowMs, retryAfter := none }

/-- How the Redis pipeline behaves on this call: a full 4-element reply, a
null/short reply (`!results || results.length < 4`), or a thrown connection
error caught by the surrounding `try`. -/
inductive StoreBehavior where
  | healthy
  | shortReply
  | connError
deriving DecidableEq

/-- `checkRateLimit` with the merged options `opts`, the wall clock `now`,
and `token` standing for the random member string
`app-now-Math.random()` appended by `zadd` (fresh per call).  The function
is total: both failure behaviors are caught in the source and converted to
the fail-open result, never rethrown.  On the two failure behaviors the
key's stored state is returned as given (the pipeline did not complete). -/
def checkRateLimit (b : StoreBehavior) (store : RedisKeyState)
    (opts : RateLimitOptions) (now : Int) (token : String) :
    RateLimitResult × RedisKeyState :=
  match b with
  | .connError => (createAllowResult opts.limit opts.windowMs now, store)
  | .shortReply => (createAllowResult opts.limit opts.windowMs now, store)
  | .healthy =>
      let windowStart := now - opts.windowMs
      let pruned := zremrangebyscore store.entries 0 windowStart
      let currentCount : Int := (pruned.length : Int)
      let afterAdd := zadd pruned now token
      let newStore : RedisKeyState :=
        { entries := afterAdd, ttl := some (jsCeilDiv1000 opts.windowMs) }
      let resetTime := now + opts.windowMs
      if opts.limit ≤ currentCount then
        ({ success := false, limit := opts.limit, remaining := 0
           resetTime := resetTime
           retryAfter := some (jsCeilDiv1000 (resetTime - now)) }, newStore)
      else
        ({ success := true, limit := opts.limit
           remaining := max 0 (opts.limit - currentCount) - 1
           resetTime := resetTime, retryAfter := none }, newStore)

/-! ## Guard (`redis-rate-limit.guard.ts`) -/

/-- The fields of the incoming request the guard reads. -/
structure GuardRequest where
  userId : Option String
  ip : Option String
  remoteAddress : Option String
  userAgentHeader : Option String
deriving DecidableEq

/-- `hashString`'s loop body on the running hash and one UTF-16 code unit:
`hash = ((hash << 5) - hash) + char; hash = hash & hash`.  The shift wraps
to 32 bits; the subtraction and addition are exact in doubles; the `&`
wraps the sum back to 32 bits. -/
def hashStep (h : Int) (c : Nat) : Int :=
  toInt32 (toInt32 (h * 32) - h + (c : Int))

/-- The signed 32-bit accumulator `hashString` ends with (strings here are
ASCII, where Lean code points and UTF-16 code units coincide). -/
def jsHash (s : String) : Int :=
  s.data.foldl (fun h c => hashStep h c.toNat) 0

/-- Digit character for `Number.prototype.toString(36)`: 0-9 then a-z. -/
def base36digit (n : Nat) : Char :=
  if n < 10 then Char.ofNat (48 + n) else Char.ofNat (87 + n)

/-- Base-36 digits of `n`, most significant first. -/
def natToBase36Go (n : Nat) : List Char :=
  if h : n = 0 then []
  else natToBase36Go (n / 36) ++ [base36digit (n % 36)]
decreasing_by exact Nat.div_lt_self (Nat.pos_of_ne_zero h) (by omega)

/-- `n.toString(36)` for a nonnegative integer `n`. -/
def natToBase36 (n : Nat) : String :=
  if n = 0 then "0" else String.mk (natToBase36Go n)

/-- `hashString`: fold the 32-bit hash, then `Math.abs(hash).toString(36)`. -/
def hashString (s : String) : String :=
  natToBase36 (jsHash s).natAbs

/-- `createIdentifier`: `userId:ip:userAgent` with JS `||` defaulting,
then hashed. -/
def createIdentifier (r : GuardRequest) : String :=
  let ip := jsOrString r.ip (jsOrString r.remoteAddress "unknown")
  let userAgent := jsOrString r.userAgentHeader "unknown"
  let userId := jsOrString r.userId "anonymous"
  hashString (userId ++ ":" ++ ip ++ ":" ++ userAgent)

/-- Two-digit zero-padded decimal. -/
def pad2 (n : Nat) : String :=
  if n < 10 then "0" ++ toString n else toString n

/-- Three-digit zero-padded decimal. -/
def pad3 (n : Nat) : String :=
  if n < 10 then "00" ++ toString n
  else if n < 100 then "0" ++ toString n
  else toString n

/-- Four-digit zero-padded decimal (years 0-9999; the repository only
formats contemporary timestamps). -/
def pad4 (n : Nat) : String :=
  if n < 10 then "000" ++ toString n
  else if n < 100 then "00" ++ toString n
  else if n < 1000 then "0" ++ toString n
  else toString n

/-- Proleptic-Gregorian civil date from days since 1970-01-01
(the days-to-civil algorithm used by every JS engine's `Date`). -/
def civilFromDays (d : Int) : Int × Nat × Nat :=
  let z := d + 719468
  let era := z / 146097
  let doe := (z % 146097).toNat
  let yoe := (doe - doe / 1460 + doe / 36524 - doe / 146096) / 365
  let y : Int := (yoe : Int) + era * 400
  let doy := doe - (365 * yoe + yoe / 4 - yoe / 100)
  let mp := (5 * doy + 2) / 153
  let day := doy - (153 * mp + 2) / 5 + 1
  let month := if mp < 10 then mp + 3 else mp - 9
  (if month ≤ 2 then y + 1 else y, month, day)

/-- `new Date(ms).toISOString()`: `YYYY-MM-DDTHH:mm:ss.sssZ` in UTC. -/
def jsToISOString (ms : Int) : String :=
  let days := ms / 86400000
  let msod := (ms % 86400000).toNat
  let c := civilFromDays days
  pad4 c.1.toNat ++ "-" ++ pad2 c.2.1 ++ "-" ++ pad2 c.2.2 ++ "T" ++
    pad2 (msod / 3600000) ++ ":" ++ pad2 (msod % 3600000 / 60000) ++ ":" ++
    pad2 (msod % 60000 / 1000) ++ "." ++ pad3 (msod % 1000) ++ "Z"

/-- The object the guard passes to `HttpException` on rejection. -/
structure RateLimitExceptionBody where
  status : Nat
  error : String
  message : String
  limit : Int
  remaining : Int
  resetTime : String
  retryAfter : Option Int
deriving DecidableEq

/-- What one `canActivate` call does to the HTTP exchange: let the request
through after setting the listed response headers, or throw an
`HttpException` with the given status and body (no headers were set). -/
inductive GuardOutcome where
  | allowed (headers : List (String × String))
  | rejected (status : Nat) (body : RateLimitExceptionBody)
deriving DecidableEq

/-- JS template interpolation of `result.retryAfter` (an optional number). -/
def retryAfterText : Option Int → String
  | some n => toString n
  | none => "undefined"

/-- `canActivate` on a route that carries rate-limit metadata, after
`checkRateLimit` returned `result`: throw 429 before any header is set, or
set the three `X-RateLimit-*` headers and allow. -/
def guardHandleResult (result : RateLimitResult) : GuardOutcome :=
  if result.success then
    .allowed
      [("X-RateLimit-Limit", toString result.limit),
       ("X-RateLimit-Remaining", toString result.remaining),
       ("X-RateLimit-Reset", jsToISOString result.resetTime)]
  else
    .rejected 429
      { status := 429
        error := "Rate limit exceeded"
        message := "Rate limit exceeded. Try again in " ++
          retryAfterText result.retryAfter ++ " seconds."
        limit := result.limit
        remaining := result.remaining
        resetTime := jsToISOString result.resetTime
        retryAfter := result.retryAfter }

/-- `canActivate` on a route with no rate-limit metadata: allow, touching
nothing. -/
def guardNoMetadata : GuardOutcome := .allowed []

/-- The response headers a guard outcome set. -/
def headersOf : GuardOutcome → List (String × String)
  | .allowed hs => hs
  | .rejected _ _ => []

/-! ## Helper lemmas -/

theorem mapFind_mapSet_self {β : Type} (l : List (String × β)) (k : String) (v : β) :
    mapFind k (mapSet l k v) = some v := by
  induction l with
  | nil => simp [mapFind, mapSet]
  | cons p rest ih =>
      by_cases hk : p.1 = k
      · simp [mapFind, mapSet, hk]
      · simp [mapFind, mapSet, hk, ih]

theorem mapFind_map_status (f : CircuitBreaker → BreakerStatus) :
    ∀ (l : List (String × CircuitBreaker)) (k : String),
      mapFind k (l.map (fun p => (p.1, f p.2))) = (mapFind k l).map f := by
  intro l
  induction l with
  | nil => intro k; simp [mapFind]
  | cons p rest ih =>
      intro k
      by_cases hk : p.1 = k
      · simp [mapFind, hk]
      · simp [mapFind, hk, ih]

theorem execute_preserves_identity {α : Type} (cb : CircuitBreaker) (now : Int)
    (r : Except JsError α) :
    ((cb.execute now r).breaker).options = cb.options ∧
    ((cb.execute now r).breaker).serviceName = cb.serviceName := by
  cases r <;>
    simp only [CircuitBreaker.execute, CircuitBreaker.runOperation,
      CircuitBreaker.onSuccess, CircuitBreaker.onFailure,
      CircuitBreaker.transitionToOpen, CircuitBreaker.transitionToHalfOpen,
      CircuitBreaker.transitionToClosed] <;>
    split <;> (try split) <;> (try split) <;> (try split) <;> simp

/-! ## Claims about the rate limiter -/

/-- C2: with `limit = 3`, `windowMs = 1000`, the store reachable and a fixed
identifier (a single key's state threaded through the calls), three calls in
one window are allowed with `remaining` 2, 1, 0, and the fourth is rejected
with `remaining = 0` and a positive `retryAfter` (the spec's
`retryAfterSeconds`; the spec's `allowed` field is the source's `success`). -/
theorem rateLimit_three_then_reject :
    let opts : RateLimitOptions := ⟨3, 1000, "rate_limit:"⟩
    let s0 : RedisKeyState := ⟨[], none⟩
    let p1 := checkRateLimit .healthy s0 opts 0 "t1"
    let p2 := checkRateLimit .healthy p1.2 opts 100 "t2"
    let p3 := checkRateLimit .healthy p2.2 opts 200 "t3"
    let p4 := checkRateLimit .healthy p3.2 opts 300 "t4"
    p1.1.success = true ∧ p1.1.remaining = 2 ∧
    p2.1.success = true ∧ p2.1.remaining = 1 ∧
    p3.1.success = true ∧ p3.1.remaining = 0 ∧
    p4.1.success = false ∧ p4.1.remaining = 0 ∧
    ∃ ra, p4.1.retryAfter = some ra ∧ 0 < ra := by
  exact ⟨rfl, rfl, rfl, rfl, rfl, rfl, rfl, rfl, 1, rfl, by norm_num⟩

/-- C3: when the store connection fails or the pipeline reply is null/short,
`checkRateLimit` still returns a result (the `try`/`catch` and the short-reply
check make it total and never rethrow) and that result is fail-open:
`success = true` with `remaining = limit - 1`. -/
theorem checkRateLimit_fail_open (b : StoreBehavior) (store : RedisKeyState)
    (opts : RateLimitOptions) (now : Int) (token : String)
    (hb : b ≠ StoreBehavior.healthy) :
    (checkRateLimit b store opts now token).1 =
      createAllowResult opts.limit opts.windowMs now ∧
    ((checkRateLimit b store opts now token).1).success = true ∧
    ((checkRateLimit b store opts now token).1).remaining = opts.limit - 1 ∧
    ((checkRateLimit b store opts now token).1).resetTime = now + opts.windowMs := by
  cases b with
  | healthy => exact absurd rfl hb
  | shortReply => exact ⟨rfl, rfl, rfl, rfl⟩
  | connError => exact ⟨rfl, rfl, rfl, rfl⟩

/-- Witness for C3 at a concrete input. -/
theorem checkRateLimit_fail_open_witness :
    (checkRateLimit .connError ⟨[], none⟩ ⟨3, 1000, "rate_limit:"⟩ 0 "t").1 =
      createAllowResult 3 1000 0 ∧
    ((checkRateLimit .connError ⟨[], none⟩ ⟨3, 1000, "rate_limit:"⟩ 0 "t").1).success
      = true ∧
    ((checkRateLimit .connError ⟨[], none⟩ ⟨3, 1000, "rate_limit:"⟩ 0 "t").1).remaining
      = 3 - 1 ∧
    ((checkRateLimit .connError ⟨[], none⟩ ⟨3, 1000, "rate_limit:"⟩ 0 "t").1).resetTime
      = 0 + 1000 :=
  checkRateLimit_fail_open .connError ⟨[], none⟩ ⟨3, 1000, "rate_limit:"⟩ 0 "t"
    (by decide)

/-- C7 counterexample: the claim also asserts that after a rejected call the
entry count is one greater than before the call.  With a stale
(expired-but-not-yet-pruned) entry present, pruning removes it during the
same call: here the key holds 2 entries before the call, the call is
rejected, and the key still holds 2 entries afterwards, not 3. -/
theorem rejected_entry_count_counterexample :
    let before : RedisKeyState := ⟨[(0, "a"), (500, "b")], none⟩
    let p := checkRateLimit .healthy before ⟨1, 1000, "rate_limit:"⟩ 1200 "c"
    before.entries.length = 2 ∧
    p.1.success = false ∧
    p.2.entries.length = 2 ∧
    ¬ p.2.entries.length = before.entries.length + 1 := by decide

/-- C7 (amended): a rejected call's just-inserted entry is kept — it is a
member of the stored window afterwards — and the resulting entry count is one
greater than the number of *unexpired* entries before the call (the pre-insert
count left by pruning), hence at least `limit + 1`.  It exceeds the total
pre-call count by exactly one only when no expired entries were pruned. -/
theorem rejected_attempt_keeps_entry (store : RedisKeyState)
    (opts : RateLimitOptions) (now : Int) (token : String)
    (hfresh : ∀ p ∈ store.entries, p.2 ≠ token)
    (hrej : ((checkRateLimit .healthy store opts now token).1).success = false) :
    (now, token) ∈ ((checkRateLimit .healthy store opts now token).2).entries ∧
    ((checkRateLimit .healthy store opts now token).2).entries.length =
      (zremrangebyscore store.entries 0 (now - opts.windowMs)).length + 1 ∧
    opts.limit + 1 ≤
      (((checkRateLimit .healthy store opts now token).2).entries.length : Int) := by
  have hfresh2 : ∀ p ∈ zremrangebyscore store.entries 0 (now - opts.windowMs),
      p.2 ≠ token := by
    intro p hp
    exact hfresh p (List.mem_filter.mp hp).1
  have hany : (zremrangebyscore store.entries 0 (now - opts.windowMs)).any
      (fun p => p.2 = token) = false := by
    rw [List.any_eq_false]
    intro p hp
    simpa using hfresh2 p hp
  have hadd : zadd (zremrangebyscore store.entries 0 (now - opts.windowMs)) now token
      = zremrangebyscore store.entries 0 (now - opts.windowMs) ++ [(now, token)] := by
    simp [zadd, hany]
  by_cases hc : opts.limit ≤
      ((zremrangebyscore store.entries 0 (now - opts.windowMs)).length : Int)
  · refine ⟨?_, ?_, ?_⟩
    · simp [checkRateLimit, hadd, hc]
    · simp [checkRateLimit, hadd, hc]
    · simp only [checkRateLimit, hadd, hc, if_pos]
      simp
      omega
  · exfalso
    have : ((checkRateLimit .healthy store opts now token).1).success = true := by
      simp [checkRateLimit, hc]
    rw [hrej] at this
    cases this

/-- Witness for C7's amended theorem at a concrete input. -/
theorem rejected_attempt_keeps_entry_witness :
    (500, "b") ∈
      ((checkRateLimit .healthy ⟨[(0, "a")], none⟩ ⟨1, 1000, "rate_limit:"⟩ 500 "b").2).entries ∧
    ((checkRateLimit .healthy ⟨[(0, "a")], none⟩ ⟨1, 1000, "rate_limit:"⟩ 500 "b").2).entries.length =
      (zremrangebyscore [(0, "a")] 0 (500 - 1000)).length + 1 ∧
    (1 : Int) + 1 ≤
      (((checkRateLimit .healthy ⟨[(0, "a")], none⟩ ⟨1, 1000, "rate_limit:"⟩ 500 "b").2).entries.length : Int) :=
  rejected_attempt_keeps_entry ⟨[(0, "a")], none⟩ ⟨1, 1000, "rate_limit:"⟩ 500 "b"
    (by decide) (by decide)

/-- C10: resetting a circuit breaker name that was never used is a no-op:
the registry is returned unchanged, no breaker is created, and `getStatus`
still has no entry for that name. -/
theorem reset_unknown_noop (svc : CircuitBreakerService) (name : String) (now : Int)
    (h : mapFind name svc.circuitBreakers = none) :
    serviceReset svc name now = svc ∧
    mapFind name (serviceGetStatus (serviceReset svc name now)) = none := by
  have h1 : serviceReset svc name now = svc := by
    simp [serviceReset, h]
  refine ⟨h1, ?_⟩
  rw [h1]
  rw [serviceGetStatus, mapFind_map_status CircuitBreaker.getStatus, h]
  rfl

/-- Witness for C10 at a concrete input. -/
theorem reset_unknown_noop_witness :
    serviceReset ⟨[]⟩ "payments" 0 = (⟨[]⟩ : CircuitBreakerService) ∧
    mapFind "payments" (serviceGetStatus (serviceReset ⟨[]⟩ "payments" 0)) = none :=
  reset_unknown_noop ⟨[]⟩ "payments" 0 rfl

/-! ## Claims about the circuit breaker -/

theorem applyFailures_opens (e : JsError) :
    ∀ (ts : List Int) (cb : CircuitBreaker),
      cb.state = .CLOSED → ts ≠ [] →
      cb.failureCount + ts.length = cb.options.failureThreshold →
      (applyFailures e cb ts).state = .OPEN ∧
      (applyFailures e cb ts).failureCount = cb.options.failureThreshold ∧
      (applyFailures e cb ts).options = cb.options ∧
      (applyFailures e cb ts).serviceName = cb.serviceName ∧
      ∃ t ∈ ts, (applyFailures e cb ts).lastFailure = some t := by
  intro ts
  induction ts with
  | nil => intro cb _ hne _; exact absurd rfl hne
  | cons t ts ih =>
      intro cb hstate _ hlen
      have hstep : (cb.execute t (Except.error (α := Unit) e)).breaker
          = cb.onFailure t := by
        simp [CircuitBreaker.execute, CircuitBreaker.runOperation, hstate]
      have hunfold : applyFailures e cb (t :: ts)
          = applyFailures e (cb.onFailure t) ts := by
        simp only [applyFailures]
        rw [hstep]
      simp only [List.length_cons] at hlen
      by_cases hts : ts = []
      · subst hts
        simp only [List.length_nil] at hlen
        have hth : cb.options.failureThreshold ≤ cb.failureCount + 1 := by omega
        have hfail : cb.onFailure t =
            CircuitBreaker.transitionToOpen
              { cb with failureCount := cb.failureCount + 1
                        lastFailure := some t
                        consecutiveSuccesses := 0 } t := by
          simp [CircuitBreaker.onFailure, hth]
        rw [hunfold, hfail]
        exact ⟨rfl, show cb.failureCount + 1 = cb.options.failureThreshold by omega,
               rfl, rfl, t, by simp, rfl⟩
      · have hlt : ¬ cb.options.failureThreshold ≤ cb.failureCount + 1 := by
          have : 1 ≤ ts.length := List.length_pos.mpr hts
          omega
        have hfail : cb.onFailure t =
            { cb with failureCount := cb.failureCount + 1
                      lastFailure := some t
                      consecutiveSuccesses := 0 } := by
          simp [CircuitBreaker.onFailure, hlt]
        rw [hunfold, hfail]
        obtain ⟨h1, h2, h3, h4, tt, htt, h5⟩ :=
          ih { cb with failureCount := cb.failureCount + 1
                       lastFailure := some t
                       consecutiveSuccesses := 0 }
            hstate hts (by simp; omega)
        exact ⟨h1, h2, h3, h4, tt, List.mem_cons_of_mem _ htt, h5⟩

/-- C4: from a CLOSED breaker with a clean failure count, `failureThreshold`
consecutive operation failures leave it OPEN; any `execute` call made while
each recorded failure is still within `recoveryTimeout` of `now` fails with
the circuit-open error, does not invoke the wrapped operation, and leaves
the breaker untouched. -/
theorem closed_failures_open_then_reject
    (cb : CircuitBreaker) (ts : List Int) (e : JsError) (now : Int)
    (r : Except JsError Unit)
    (hstate : cb.state = .CLOSED) (hcount : cb.failureCount = 0)
    (hlen : ts.length = cb.options.failureThreshold)
    (hpos : 0 < cb.options.failureThreshold)
    (hrecent : ∀ t ∈ ts, now - t < cb.options.recoveryTimeout) :
    (applyFailures e cb ts).state = .OPEN ∧
    ((applyFailures e cb ts).execute now r).result =
      Except.error (openError cb.serviceName) ∧
    ((applyFailures e cb ts).execute now r).opInvoked = false ∧
    ((applyFailures e cb ts).execute now r).breaker = applyFailures e cb ts := by
  have hne : ts ≠ [] := by
    intro hnil
    rw [hnil] at hlen
    simp at hlen
    omega
  obtain ⟨hopen, _, hopts, hname, t, hmem, hlf⟩ :=
    applyFailures_opens e ts cb hstate hne (by omega)
  have hsar : (applyFailures e cb ts).shouldAttemptReset now = false := by
    simp only [CircuitBreaker.shouldAttemptReset, hlf]
    rw [decide_eq_false_iff_not]
    have := hrecent t hmem
    rw [hopts]
    omega
  refine ⟨hopen, ?_, ?_, ?_⟩ <;>
    simp [CircuitBreaker.execute, hopen, hsar, hname]

/-- Witness for C4 at a concrete input: threshold 3, failures at 0, 1, 2,
then a call at 1000 (well inside the 30000 ms recovery window). -/
theorem closed_failures_open_then_reject_witness :
    (applyFailures ⟨"Error", "boom"⟩
        (newCircuitBreaker "svc" ⟨3, 30000, 5000, 60000⟩ 0) [0, 1, 2]).state
      = .OPEN ∧
    ((applyFailures ⟨"Error", "boom"⟩
        (newCircuitBreaker "svc" ⟨3, 30000, 5000, 60000⟩ 0) [0, 1, 2]).execute 1000
        (Except.ok ())).result = Except.error (openError "svc") ∧
    ((applyFailures ⟨"Error", "boom"⟩
        (newCircuitBreaker "svc" ⟨3, 30000, 5000, 60000⟩ 0) [0, 1, 2]).execute 1000
        (Except.ok ())).opInvoked = false ∧
    ((applyFailures ⟨"Error", "boom"⟩
        (newCircuitBreaker "svc" ⟨3, 30000, 5000, 60000⟩ 0) [0, 1, 2]).execute 1000
        (Except.ok ())).breaker =
      applyFailures ⟨"Error", "boom"⟩
        (newCircuitBreaker "svc" ⟨3, 30000, 5000, 60000⟩ 0) [0, 1, 2] :=
  closed_failures_open_then_reject
    (newCircuitBreaker "svc" ⟨3, 30000, 5000, 60000⟩ 0) [0, 1, 2]
    ⟨"Error", "boom"⟩ 1000 (Except.ok ()) rfl rfl rfl (by decide) (by decide)

/-- C1 counterexample: threshold 3 breaker driven OPEN by failures at
0, 1, 2, probed successfully at 40000 (entering HALF_OPEN, where the success
resets `failureCount` to 0), then failed at 40001.  The failure leaves the
breaker in HALF_OPEN with `failureCount = 1`: it does NOT transition to
OPEN, refuting the claim for the case where a successful probe preceded the
failure. -/
theorem halfOpen_failure_counterexample :
    let e : JsError := ⟨"Error", "boom"⟩
    let cb3 := applyFailures e (newCircuitBreaker "svc" ⟨3, 30000, 5000, 60000⟩ 0)
      [0, 1, 2]
    let cb4 := (cb3.execute 40000 (Except.ok ())).breaker
    let out := cb4.execute 40001 (Except.error (α := Unit) e)
    cb4.state = .HALF_OPEN ∧
    cb4.consecutiveSuccesses = 1 ∧
    cb4.failureCount = 0 ∧
    out.breaker.state = .HALF_OPEN ∧
    ¬ out.breaker.state = .OPEN := by decide

/-- C1 (amended): a failing `execute` on a HALF_OPEN breaker re-raises the
error, resets `consecutiveSuccesses` to 0 and records `lastFailureTime`, but
it transitions to OPEN if and only if the incremented `failureCount` reaches
`failureThreshold`.  A failure with no preceding successful probe (so
`failureCount` is still at least the threshold) re-opens the breaker; a
failure preceded by a successful probe (which reset `failureCount` to 0)
leaves it in HALF_OPEN whenever `failureThreshold > 1`. -/
theorem halfOpen_failure_transitions (cb : CircuitBreaker) (now : Int) (e : JsError)
    (h : cb.state = .HALF_OPEN) :
    (cb.execute now (Except.error (α := Unit) e)).result = Except.error e ∧
    (cb.execute now (Except.error (α := Unit) e)).opInvoked = true ∧
    ((cb.execute now (Except.error (α := Unit) e)).breaker).consecutiveSuccesses = 0 ∧
    ((cb.execute now (Except.error (α := Unit) e)).breaker).lastFailure = some now ∧
    (((cb.execute now (Except.error (α := Unit) e)).breaker).state = .OPEN ↔
      cb.options.failureThreshold ≤ cb.failureCount + 1) := by
  have hstep : cb.execute now (Except.error (α := Unit) e)
      = ⟨Except.error e, cb.onFailure now, true⟩ := by
    simp [CircuitBreaker.execute, CircuitBreaker.runOperation, h]
  rw [hstep]
  refine ⟨rfl, rfl, ?_, ?_, ?_⟩ <;>
    by_cases hth : cb.options.failureThreshold ≤ cb.failureCount + 1 <;>
    simp [CircuitBreaker.onFailure, CircuitBreaker.transitionToOpen, hth, h]

/-- Witness for C1's amended theorem: a HALF_OPEN breaker that has seen one
successful probe (`failureCount = 0`, threshold 3) fails at 40001 and stays
out of OPEN. -/
theorem halfOpen_failure_transitions_witness :
    let cb : CircuitBreaker :=
      { state := .HALF_OPEN, failureCount := 0, lastFailure := some 2
        lastStateChange := 40000, consecutiveSuccesses := 1
        options := ⟨3, 30000, 5000, 60000⟩, serviceName := "svc" }
    let e : JsError := ⟨"Error", "boom"⟩
    (cb.execute 40001 (Except.error (α := Unit) e)).result = Except.error e ∧
    (cb.execute 40001 (Except.error (α := Unit) e)).opInvoked = true ∧
    ((cb.execute 40001 (Except.error (α := Unit) e)).breaker).consecutiveSuccesses = 0 ∧
    ((cb.execute 40001 (Except.error (α := Unit) e)).breaker).lastFailure = some 40001 ∧
    (((cb.execute 40001 (Except.error (α := Unit) e)).breaker).state = .OPEN ↔
      (3 : Nat) ≤ 0 + 1) :=
  halfOpen_failure_transitions
    { state := .HALF_OPEN, failureCount := 0, lastFailure := some 2
      lastStateChange := 40000, consecutiveSuccesses := 1
      options := ⟨3, 30000, 5000, 60000⟩, serviceName := "svc" }
    40001 ⟨"Error", "boom"⟩ rfl

/-- C6 counterexample: the circuit-open rejection is a plain `Error`, the
same runtime type an ordinary failing operation can throw.  Here an OPEN
breaker (within the recovery window) rejects a call whose operation would
have thrown `Error("boom")`: the rejection's type equals the operation
error's type, so the two are not distinguishable by error type, refuting
"a distinct typed error (not the wrapped operation's error type)". -/
theorem open_rejection_same_type_counterexample :
    let cb : CircuitBreaker :=
      { state := .OPEN, failureCount := 3, lastFailure := some 0
        lastStateChange := 0, consecutiveSuccesses := 0
        options := ⟨3, 30000, 5000, 60000⟩, serviceName := "svc" }
    let opError : JsError := ⟨"Error", "boom"⟩
    (cb.execute 1000 (Except.error (α := Unit) opError)).result
      = Except.error (openError "svc") ∧
    (openError "svc").ty = opError.ty := ⟨rfl, rfl⟩

/-- C6 (amended): the open-state rejection is a plain `Error` (not a
distinct error type) whose *message* identifies the dependency name
("Circuit breaker for name is OPEN"), so callers can distinguish it only by
message; and whenever the wrapped operation is invoked and fails, `execute`
re-raises the original error to the caller unchanged. -/
theorem execute_error_reporting (cb : CircuitBreaker) (t now : Int) (e : JsError)
    (hstate : cb.state = .OPEN) (hlf : cb.lastFailure = some t)
    (ht : now - t < cb.options.recoveryTimeout) :
    (cb.execute now (Except.error (α := Unit) e)).result =
      Except.error (openError cb.serviceName) ∧
    (openError cb.serviceName).ty = "Error" ∧
    (openError cb.serviceName).msg =
      "Circuit breaker for " ++ cb.serviceName ++ " is OPEN" ∧
    ∀ (cb2 : CircuitBreaker) (n2 : Int),
      (cb2.execute n2 (Except.error (α := Unit) e)).opInvoked = true →
      (cb2.execute n2 (Except.error (α := Unit) e)).result = Except.error e := by
  have hsar : cb.shouldAttemptReset now = false := by
    simp only [CircuitBreaker.shouldAttemptReset, hlf]
    rw [decide_eq_false_iff_not]
    omega
  refine ⟨by simp [CircuitBreaker.execute, hstate, hsar], rfl, rfl, ?_⟩
  intro cb2 n2 hinv
  by_cases h2 : cb2.state = .OPEN
  · by_cases h3 : cb2.shouldAttemptReset n2 = true
    · simp [CircuitBreaker.execute, CircuitBreaker.runOperation, h2, h3]
    · simp [CircuitBreaker.execute, h2, h3] at hinv
  · simp [CircuitBreaker.execute, CircuitBreaker.runOperation, h2]

/-- Witness for C6's amended theorem at a concrete input. -/
theorem execute_error_reporting_witness :
    let cb : CircuitBreaker :=
      { state := .OPEN, failureCount := 3, lastFailure := some 0
        lastStateChange := 0, consecutiveSuccesses := 0
        options := ⟨3, 30000, 5000, 60000⟩, serviceName := "svc" }
    let e : JsError := ⟨"Error", "boom"⟩
    (cb.execute 1000 (Except.error (α := Unit) e)).result =
      Except.error (openError "svc") ∧
    (openError "svc").ty = "Error" ∧
    (openError "svc").msg = "Circuit breaker for " ++ "svc" ++ " is OPEN" ∧
    ∀ (cb2 : CircuitBreaker) (n2 : Int),
      (cb2.execute n2 (Except.error (α := Unit) (⟨"Error", "boom"⟩ : JsError))).opInvoked
        = true →
      (cb2.execute n2 (Except.error (α := Unit) (⟨"Error", "boom"⟩ : JsError))).result
        = Except.error ⟨"Error", "boom"⟩ :=
  execute_error_reporting
    { state := .OPEN, failureCount := 3, lastFailure := some 0
      lastStateChange := 0, consecutiveSuccesses := 0
      options := ⟨3, 30000, 5000, 60000⟩, serviceName := "svc" }
    0 1000 ⟨"Error", "boom"⟩ rfl rfl (by decide)

/-- C8: the first `execute` for a name creates exactly one breaker,
configured from the options supplied at that first call merged over the
defaults; the registry then holds that instance (as updated by the call),
a second `execute` for the same name retrieves the stored instance and
creates nothing, and after the second call — made with different options —
the stored breaker still carries the first call's merged options
(first-writer-wins). -/
theorem breaker_first_writer_wins (svc : CircuitBreakerService) (name : String)
    (o1 o2 : PartialCircuitBreakerOptions) (n1 n2 : Int)
    (r1 r2 : Except JsError Unit)
    (h : mapFind name svc.circuitBreakers = none) :
    (getOrCreateCircuitBreaker svc name o1 n1).1
      = newCircuitBreaker name (mergeOptions o1) n1 ∧
    mapFind name ((serviceExecute svc name o1 n1 r1).2.1).circuitBreakers
      = some ((newCircuitBreaker name (mergeOptions o1) n1).execute n1 r1).breaker ∧
    getOrCreateCircuitBreaker (serviceExecute svc name o1 n1 r1).2.1 name o2 n2
      = (((newCircuitBreaker name (mergeOptions o1) n1).execute n1 r1).breaker,
         (serviceExecute svc name o1 n1 r1).2.1) ∧
    ∀ cb2, mapFind name
        ((serviceExecute (serviceExecute svc name o1 n1 r1).2.1 name o2 n2 r2).2.1).circuitBreakers
        = some cb2 →
      cb2.options = mergeOptions o1 ∧ cb2.serviceName = name := by
  have hget1 : getOrCreateCircuitBreaker svc name o1 n1
      = (newCircuitBreaker name (mergeOptions o1) n1,
         ⟨mapSet svc.circuitBreakers name (newCircuitBreaker name (mergeOptions o1) n1)⟩) := by
    simp [getOrCreateCircuitBreaker, h]
  have hreg1 : (serviceExecute svc name o1 n1 r1).2.1
      = ⟨mapSet (mapSet svc.circuitBreakers name (newCircuitBreaker name (mergeOptions o1) n1))
          name ((newCircuitBreaker name (mergeOptions o1) n1).execute n1 r1).breaker⟩ := by
    simp [serviceExecute, hget1]
  have hfind1 : mapFind name ((serviceExecute svc name o1 n1 r1).2.1).circuitBreakers
      = some ((newCircuitBreaker name (mergeOptions o1) n1).execute n1 r1).breaker := by
    rw [hreg1]
    exact mapFind_mapSet_self _ _ _
  have hget2 : getOrCreateCircuitBreaker (serviceExecute svc name o1 n1 r1).2.1 name o2 n2
      = (((newCircuitBreaker name (mergeOptions o1) n1).execute n1 r1).breaker,
         (serviceExecute svc name o1 n1 r1).2.1) := by
    simp [getOrCreateCircuitBreaker, hfind1]
  refine ⟨by rw [hget1], hfind1, hget2, ?_⟩
  intro cb2 hcb2
  have hreg2 : (serviceExecute (serviceExecute svc name o1 n1 r1).2.1 name o2 n2 r2).2.1
      = ⟨mapSet ((serviceExecute svc name o1 n1 r1).2.1).circuitBreakers name
          ((((newCircuitBreaker name (mergeOptions o1) n1).execute n1 r1).breaker).execute
            n2 r2).breaker⟩ := by
    rw [hreg1]
    simp [serviceExecute, getOrCreateCircuitBreaker, mapFind_mapSet_self]
  rw [hreg2] at hcb2
  rw [mapFind_mapSet_self] at hcb2
  have hid1 := execute_preserves_identity
    (newCircuitBreaker name (mergeOptions o1) n1) n1 r1
  have hid2 := execute_preserves_identity
    (((newCircuitBreaker name (mergeOptions o1) n1).execute n1 r1).breaker) n2 r2
  cases hcb2
  constructor
  · rw [hid2.1, hid1.1]
    rfl
  · rw [hid2.2, hid1.2]
    rfl

/-- Witness for C8 at a concrete input: an empty registry, first call with
threshold 2, second call with threshold 9 — the stored options keep
threshold 2. -/
theorem breaker_first_writer_wins_witness :
    (getOrCreateCircuitBreaker ⟨[]⟩ "svc" ⟨some 2, none, none, none⟩ 0).1
      = newCircuitBreaker "svc" (mergeOptions ⟨some 2, none, none, none⟩) 0 ∧
    mapFind "svc" ((serviceExecute ⟨[]⟩ "svc" ⟨some 2, none, none, none⟩ 0
        (Except.ok ())).2.1).circuitBreakers
      = some ((newCircuitBreaker "svc" (mergeOptions ⟨some 2, none, none, none⟩) 0).execute
          0 (Except.ok ())).breaker ∧
    getOrCreateCircuitBreaker
        (serviceExecute ⟨[]⟩ "svc" ⟨some 2, none, none, none⟩ 0 (Except.ok ())).2.1
        "svc" ⟨some 9, none, none, none⟩ 5
      = (((newCircuitBreaker "svc" (mergeOptions ⟨some 2, none, none, none⟩) 0).execute
            0 (Except.ok ())).breaker,
         (serviceExecute ⟨[]⟩ "svc" ⟨some 2, none, none, none⟩ 0 (Except.ok ())).2.1) ∧
    ∀ cb2, mapFind "svc"
        ((serviceExecute
            (serviceExecute ⟨[]⟩ "svc" ⟨some 2, none, none, none⟩ 0 (Except.ok ())).2.1
            "svc" ⟨some 9, none, none, none⟩ 5 (Except.ok ())).2.1).circuitBreakers
        = some cb2 →
      cb2.options = mergeOptions ⟨some 2, none, none, none⟩ ∧ cb2.serviceName = "svc" :=
  breaker_first_writer_wins ⟨[]⟩ "svc" ⟨some 2, none, none, none⟩
    ⟨some 9, none, none, none⟩ 0 5 (Except.ok ()) (Except.ok ()) rfl

/-! ## Claims about the guard -/

/-- C5 counterexample: on rejection the guard throws the 429 exception
*before* reaching the `setHeader` lines, so the rejected response carries no
`X-RateLimit-*` headers from the guard — refuting "sets the response headers
... on both allowed and rejected responses".  Concretely, a rejected result
yields a 429 outcome whose header list is empty and in particular has no
`X-RateLimit-Limit` entry. -/
theorem guard_rejected_no_headers_counterexample :
    let r : RateLimitResult :=
      { success := false, limit := 3, remaining := 0, resetTime := 1000
        retryAfter := some 1 }
    guardHandleResult r = GuardOutcome.rejected 429
      { status := 429
        error := "Rate limit exceeded"
        message := "Rate limit exceeded. Try again in 1 seconds."
        limit := 3
        remaining := 0
        resetTime := "1970-01-01T00:00:01.000Z"
        retryAfter := some 1 } ∧
    headersOf (guardHandleResult r) = [] ∧
    mapFind "X-RateLimit-Limit" (headersOf (guardHandleResult r)) = none := by decide

/-- C5 (amended): on an allowed result the guard sets exactly the three
`X-RateLimit-*` headers (limit, remaining, and the reset time as an ISO-8601
string); on a rejected result it returns HTTP 429 with a body carrying
`limit`, `remaining`, `resetTime` (ISO-8601) and `retryAfter` (seconds) —
but sets no response headers, since the exception is thrown before the
header lines run. -/
theorem guard_headers_allowed_only (r : RateLimitResult) :
    (r.success = true →
      guardHandleResult r = GuardOutcome.allowed
        [("X-RateLimit-Limit", toString r.limit),
         ("X-RateLimit-Remaining", toString r.remaining),
         ("X-RateLimit-Reset", jsToISOString r.resetTime)]) ∧
    (r.success = false →
      guardHandleResult r = GuardOutcome.rejected 429
        { status := 429
          error := "Rate limit exceeded"
          message := "Rate limit exceeded. Try again in " ++
            retryAfterText r.retryAfter ++ " seconds."
          limit := r.limit
          remaining := r.remaining
          resetTime := jsToISOString r.resetTime
          retryAfter := r.retryAfter } ∧
      headersOf (guardHandleResult r) = []) := by
  constructor
  · intro hs
    simp [guardHandleResult, hs]
  · intro hs
    constructor <;> simp [guardHandleResult, headersOf, hs]

/-- Witness for C5's amended theorem: an allowed result gets exactly the
three headers. -/
theorem guard_headers_allowed_only_witness :
    guardHandleResult
        { success := true, limit := 3, remaining := 2, resetTime := 0
          retryAfter := none }
      = GuardOutcome.allowed
        [("X-RateLimit-Limit", toString (3 : Int)),
         ("X-RateLimit-Remaining", toString (2 : Int)),
         ("X-RateLimit-Reset", jsToISOString 0)] :=
  (guard_headers_allowed_only
    { success := true, limit := 3, remaining := 2, resetTime := 0
      retryAfter := none }).1 rfl

/-- Bounds of the JS `ToInt32` conversion. -/
theorem toInt32_bounds (x : Int) : -2 ^ 31 ≤ toInt32 x ∧ toInt32 x < 2 ^ 31 := by
  unfold toInt32
  constructor
  · have := Int.emod_nonneg (x + 2 ^ 31) (by norm_num : (2 : Int) ^ 32 ≠ 0)
    omega
  · have := Int.emod_lt_of_pos (x + 2 ^ 31) (by norm_num : (0 : Int) < 2 ^ 32)
    omega

/-- The hash accumulator stays inside the signed 32-bit range. -/
theorem hashFold_bounds :
    ∀ (l : List Char) (h : Int), -2 ^ 31 ≤ h → h < 2 ^ 31 →
      -2 ^ 31 ≤ l.foldl (fun a c => hashStep a c.toNat) h ∧
      l.foldl (fun a c => hashStep a c.toNat) h < 2 ^ 31 := by
  intro l
  induction l with
  | nil => intro h hl hr; exact ⟨hl, hr⟩
  | cons c cs ih =>
      intro h _ _
      simp only [List.foldl_cons]
      exact ih _ (toInt32_bounds _).1 (toInt32_bounds _).2

/-- C9: the guard's identifier derivation is a pure function of
`(userId, ip, remoteAddress, userAgent)` — two requests agreeing on those
fields hash to the same store key — and for every string the 32-bit hash
accumulator has absolute value below `2^32` (in fact at most `2^31`), with
`hashString` returning exactly the base-36 rendering of that nonnegative
value. -/
theorem identifier_deterministic_hash_bounded (r1 r2 : GuardRequest)
    (huid : r1.userId = r2.userId) (hip : r1.ip = r2.ip)
    (hra : r1.remoteAddress = r2.remoteAddress)
    (hua : r1.userAgentHeader = r2.userAgentHeader) :
    createIdentifier r1 = createIdentifier r2 ∧
    ∀ s : String, (jsHash s).natAbs < 2 ^ 32 ∧
      hashString s = natToBase36 (jsHash s).natAbs := by
  refine ⟨by simp [createIdentifier, huid, hip, hra, hua], ?_⟩
  intro s
  refine ⟨?_, rfl⟩
  have h1 : (-2 : Int) ^ 31 ≤ jsHash s ∧ jsHash s < 2 ^ 31 := by
    have := hashFold_bounds s.data 0 (by norm_num) (by norm_num)
    constructor
    · have h2 := this.1
      simp only [jsHash]
      omega
    · have h2 := this.2
      simp only [jsHash]
      omega
  omega

/-- Witness for C9 at a concrete request. -/
theorem identifier_deterministic_hash_bounded_witness :
    createIdentifier ⟨some "u1", some "1.2.3.4", none, some "curl"⟩ =
      createIdentifier ⟨some "u1", some "1.2.3.4", none, some "curl"⟩ ∧
    ∀ s : String, (jsHash s).natAbs < 2 ^ 32 ∧
      hashString s = natToBase36 (jsHash s).natAbs :=
  identifier_deterministic_hash_bounded
    ⟨some "u1", some "1.2.3.4", none, some "curl"⟩
    ⟨some "u1", some "1.2.3.4", none, some "curl"⟩ rfl rfl rfl rfl

end TaskFlow
